import Mathlib

set_option autoImplicit false

deriving instance DecidableEq for Except

namespace MulticloudK8s

/-! Shallow embedding of the provisioning orchestration subsystem of the
multicloud-k8s repository: the encrypted credential store
(apps/api/src/services/credentials.ts together with encryption.ts), the
provider adapters (apps/api/src/services/providers/), and the provisioning
orchestrator (apps/api/src/services/provisioner.ts).  External collaborators
(the relational store, the cloud SDKs, the node crypto library, SSH) are
modelled as explicit state or environment parameters; the repository-level
logic is translated directly from the TypeScript source. -/

/-- JavaScript truthiness for an optional string field: `undefined` and the
empty string are falsy, every other string is truthy. -/
def strTruthy : Option String → Bool
  | none => false
  | some s => s != ""

/-- JavaScript `a || b` where `a` is an optional string: a falsy value
(absent or empty) falls back to the default. -/
def strOrElse (s : Option String) (d : String) : String :=
  match s with
  | none => d
  | some v => if v = "" then d else v

/-- JavaScript string interpolation of an optional value: `undefined`
renders as the literal string "undefined". -/
def jsInterp : Option String → String
  | none => "undefined"
  | some s => s

/-- String.prototype.toUpperCase restricted to ASCII, modelled directly over
the character list so that it evaluates inside the kernel. -/
def jsToUpperCase (s : String) : String :=
  String.mk (s.data.map Char.toUpper)

namespace Encryption

/-! Model of apps/api/src/services/encryption.ts.  Secrets and ciphertexts
are byte strings, represented as lists of byte values (`List Nat`), so that
the hex framing and the colon separator written by the source can be reasoned
about directly.  The aes-256-cbc primitive of the external node crypto
library is an environment parameter. -/

/-- Byte strings (each element is one byte value). -/
abbrev Bytes := List Nat

/-- Model of the external aes-256-cbc primitive
(crypto.createCipheriv / crypto.createDecipheriv plus update and final):
a keyed, IV-indexed transformation of byte strings.  The repository treats
it as a black box; its inverse property enters the round-trip theorem as a
hypothesis. -/
structure CipherPrimitive where
  enc : Bytes → Bytes → Bytes → Bytes
  dec : Bytes → Bytes → Bytes → Bytes

/-- The byte value of the colon separator placed between the hex encoded IV
and the hex encoded ciphertext. -/
def colonCode : Nat := 58

/-- IV_LENGTH from encryption.ts: 16 random bytes per encrypt call. -/
def ivLength : Nat := 16

/-- Code of the lowercase hex digit for a value below 16. -/
def hexDigitCode (n : Nat) : Nat := if n < 10 then 48 + n else 87 + n

/-- Value of a lowercase hex digit code. -/
def hexDigitVal (c : Nat) : Nat := if 97 ≤ c then c - 87 else c - 48

/-- Buffer.toString("hex"): two lowercase hex digits per byte. -/
def toHexCodes (bs : Bytes) : Bytes :=
  bs.flatMap fun b => [hexDigitCode (b / 16), hexDigitCode (b % 16)]

/-- Buffer.from(str, "hex"): parse consecutive pairs of hex digit codes. -/
def fromHexCodes : Bytes → Bytes
  | a :: b :: rest => (hexDigitVal a * 16 + hexDigitVal b) :: fromHexCodes rest
  | _ => []

/-- String.prototype.split for a one-character separator. -/
def splitOnCode (c : Nat) : Bytes → List Bytes
  | [] => [[]]
  | x :: xs =>
    if x = c then [] :: splitOnCode c xs
    else
      match splitOnCode c xs with
      | [] => [[x]]
      | h :: t => (x :: h) :: t

/-- Array.prototype.join for a one-character separator. -/
def joinWith (c : Nat) : List Bytes → Bytes
  | [] => []
  | [l] => l
  | l :: ls => l ++ c :: joinWith c ls

/-- encryption.encrypt: with the IV passed explicitly (crypto.randomBytes is
external nondeterminism), the returned string is
hex(iv) ++ ":" ++ hex(aesEnc(key, iv, text)). -/
def encrypt (P : CipherPrimitive) (key iv text : Bytes) : Bytes :=
  toHexCodes iv ++ colonCode :: toHexCodes (P.enc key iv text)

/-- encryption.decrypt: split on ":", decode the shifted first part as the
IV, rejoin the remaining parts with ":" and decode them as the ciphertext,
then decrypt.  The empty branch of the match is unreachable because split
never returns an empty array. -/
def decrypt (P : CipherPrimitive) (key text : Bytes) : Bytes :=
  match splitOnCode colonCode text with
  | [] => []
  | ivHex :: rest =>
    P.dec key (fromHexCodes ivHex) (fromHexCodes (joinWith colonCode rest))

theorem hexDigitCode_ne_colon (n : Nat) : hexDigitCode n ≠ colonCode := by
  unfold hexDigitCode colonCode
  split <;> omega

theorem hexDigitVal_hexDigitCode (n : Nat) (h : n < 16) :
    hexDigitVal (hexDigitCode n) = n := by
  unfold hexDigitVal hexDigitCode
  split_ifs <;> omega

theorem toHexCodes_cons (b : Nat) (rest : Bytes) :
    toHexCodes (b :: rest) =
      hexDigitCode (b / 16) :: hexDigitCode (b % 16) :: toHexCodes rest := by
  simp [toHexCodes]

theorem mem_toHexCodes_ne_colon {bs : Bytes} {x : Nat}
    (hx : x ∈ toHexCodes bs) : x ≠ colonCode := by
  unfold toHexCodes at hx
  rcases List.mem_flatMap.mp hx with ⟨b, _, hb⟩
  simp only [List.mem_cons, List.mem_singleton, List.not_mem_nil, or_false] at hb
  rcases hb with h | h <;> (subst h; exact hexDigitCode_ne_colon _)

theorem fromHexCodes_toHexCodes {bs : Bytes} (h : ∀ b ∈ bs, b < 256) :
    fromHexCodes (toHexCodes bs) = bs := by
  induction bs with
  | nil => rfl
  | cons b rest ih =>
    have hb : b < 256 := h b (by simp)
    have hd : b / 16 < 16 := by omega
    have hm : b % 16 < 16 := Nat.mod_lt _ (by omega)
    have hrest : ∀ x ∈ rest, x < 256 := fun x hx => h x (by simp [hx])
    rw [toHexCodes_cons, fromHexCodes]
    rw [hexDigitVal_hexDigitCode _ hd, hexDigitVal_hexDigitCode _ hm, ih hrest]
    congr 1
    omega

theorem toHexCodes_length (bs : Bytes) :
    (toHexCodes bs).length = 2 * bs.length := by
  induction bs with
  | nil => rfl
  | cons b rest ih =>
    rw [toHexCodes_cons]
    simp only [List.length_cons, ih]
    omega

theorem splitOnCode_cons (c x : Nat) (xs : Bytes) :
    splitOnCode c (x :: xs) =
      if x = c then [] :: splitOnCode c xs
      else
        match splitOnCode c xs with
        | [] => [[x]]
        | h :: t => (x :: h) :: t := by
  rfl

theorem splitOnCode_ne_nil (c : Nat) (l : Bytes) : splitOnCode c l ≠ [] := by
  cases l with
  | nil => simp [splitOnCode]
  | cons x xs =>
    rw [splitOnCode_cons]
    split
    · simp
    · split <;> simp

theorem joinWith_cons_of_ne_nil (c : Nat) (h : Bytes) (t : List Bytes)
    (ht : t ≠ []) : joinWith c (h :: t) = h ++ c :: joinWith c t := by
  cases t with
  | nil => exact absurd rfl ht
  | cons a as => rfl

theorem joinWith_splitOnCode (c : Nat) (l : Bytes) :
    joinWith c (splitOnCode c l) = l := by
  induction l with
  | nil => rfl
  | cons x xs ih =>
    by_cases hx : x = c
    · subst hx
      have h1 : splitOnCode x (x :: xs) = [] :: splitOnCode x xs := by
        rw [splitOnCode_cons, if_pos rfl]
      rw [h1, joinWith_cons_of_ne_nil x [] _ (splitOnCode_ne_nil x xs), ih]
      simp
    · have h1 : splitOnCode c (x :: xs) =
          match splitOnCode c xs with
          | [] => [[x]]
          | h :: t => (x :: h) :: t := by
        rw [splitOnCode_cons, if_neg hx]
      cases hsp : splitOnCode c xs with
      | nil => exact absurd hsp (splitOnCode_ne_nil c xs)
      | cons h t =>
        rw [hsp] at ih
        rw [h1, hsp]
        cases t with
        | nil =>
          simp only [joinWith] at ih ⊢
          rw [ih]
        | cons b bs =>
          rw [joinWith_cons_of_ne_nil c (x :: h) (b :: bs) (by simp)]
          rw [joinWith_cons_of_ne_nil c h (b :: bs) (by simp)] at ih
          rw [List.cons_append, ih]

theorem splitOnCode_append (c : Nat) (a b : Bytes) (ha : ∀ x ∈ a, x ≠ c) :
    splitOnCode c (a ++ c :: b) = a :: splitOnCode c b := by
  induction a with
  | nil =>
    simp only [List.nil_append]
    rw [splitOnCode_cons, if_pos rfl]
  | cons x xs ih =>
    have hx : x ≠ c := ha x (by simp)
    have hxs : ∀ y ∈ xs, y ≠ c := fun y hy => ha y (by simp [hy])
    simp only [List.cons_append]
    rw [splitOnCode_cons, if_neg hx, ih hxs]

/-- Identity instance of the abstract cipher primitive, used to witness the
satisfiability of the round-trip hypotheses. -/
def idCipher : CipherPrimitive :=
  { enc := fun _ _ t => t, dec := fun _ _ t => t }

/-- A concrete 16-byte IV. -/
def ivA : Bytes := List.replicate 16 0

/-- A second, different concrete 16-byte IV. -/
def ivB : Bytes := 1 :: List.replicate 15 0

end Encryption

/-- C6: for every string x, decrypt(encrypt(x)) = x, and because every
encrypt call draws a fresh random 16-byte IV that is prefixed to the
returned ciphertext, two encrypt calls on the same x under different IVs
produce different ciphertext strings.  The aes-256-cbc primitive of the
node crypto library is abstract; its inverse property at the used points,
and the fact that it produces bytes, are hypotheses. -/
theorem c6_encrypt_decrypt_roundtrip_and_fresh_iv
    (P : Encryption.CipherPrimitive) (key iv iv2 text : Encryption.Bytes)
    (hinv : P.dec key iv (P.enc key iv text) = text)
    (hct : ∀ b ∈ P.enc key iv text, b < 256)
    (hiv : ∀ b ∈ iv, b < 256) (hiv2 : ∀ b ∈ iv2, b < 256)
    (hlen : iv.length = Encryption.ivLength)
    (hlen2 : iv2.length = Encryption.ivLength) :
    Encryption.decrypt P key (Encryption.encrypt P key iv text) = text ∧
    (iv ≠ iv2 →
      Encryption.encrypt P key iv text ≠ Encryption.encrypt P key iv2 text) := by
  constructor
  · unfold Encryption.encrypt Encryption.decrypt
    rw [Encryption.splitOnCode_append _ _ _
      (fun x hx => Encryption.mem_toHexCodes_ne_colon hx)]
    dsimp only
    rw [Encryption.joinWith_splitOnCode]
    rw [Encryption.fromHexCodes_toHexCodes hiv,
      Encryption.fromHexCodes_toHexCodes hct]
    exact hinv
  · intro hne heq
    unfold Encryption.encrypt at heq
    have hlens : (Encryption.toHexCodes iv).length =
        (Encryption.toHexCodes iv2).length := by
      rw [Encryption.toHexCodes_length, Encryption.toHexCodes_length, hlen, hlen2]
    have hpre := (List.append_inj heq hlens).1
    have : iv = iv2 := by
      have h1 := congrArg Encryption.fromHexCodes hpre
      rwa [Encryption.fromHexCodes_toHexCodes hiv,
        Encryption.fromHexCodes_toHexCodes hiv2] at h1
    exact hne this

/-- Witness for C6: the hypotheses are satisfied by a concrete primitive
(the identity cipher), the two concrete IVs really differ, and the
round-trip evaluates on concrete bytes. -/
theorem c6_witness :
    Encryption.ivA ≠ Encryption.ivB ∧
    (Encryption.decrypt Encryption.idCipher [7]
        (Encryption.encrypt Encryption.idCipher [7] Encryption.ivA [1, 2]) =
      [1, 2] ∧
    (Encryption.ivA ≠ Encryption.ivB →
      Encryption.encrypt Encryption.idCipher [7] Encryption.ivA [1, 2] ≠
        Encryption.encrypt Encryption.idCipher [7] Encryption.ivB [1, 2])) :=
  ⟨by decide,
    c6_encrypt_decrypt_roundtrip_and_fresh_iv Encryption.idCipher [7]
      Encryption.ivA Encryption.ivB [1, 2] rfl (by decide) (by decide)
      (by decide) (by decide) (by decide)⟩

/-! Data model shared by the credential service, the provider adapters and
the orchestrator (providers/cluster-provider.ts and the database rows). -/

/-- One key/value tag or label entry. -/
structure TagKV where
  key : String
  value : String
deriving DecidableEq, Repr

/-- JavaScript object lookup over a literal-plus-spread tag object: the last
binding of a key wins, mirroring { a: x, ...custom } spread semantics. -/
def tagLookup (l : List TagKV) (k : String) : Option String :=
  (l.reverse.find? (fun t => t.key == k)).map TagKV.value

/-- One entry of ProvisioningResult.instances (cluster-provider.ts). -/
structure InstanceInfo where
  instanceId : String
  privateIp : Option String := none
  publicIp : Option String := none
  state : Option String := none
deriving DecidableEq, Repr

/-- One entry of ProvisioningResult.nodes (an array of untyped objects used
by the Azure and GCP adapters with different field sets; fields a given
adapter does not set are none). -/
structure GenericNode where
  name : Option String := none
  id : Option String := none
  publicIP : Option String := none
  status : Option String := none
  operation : Option String := none
deriving DecidableEq, Repr

/-- The provider-specific details map of a ProvisioningResult, restricted to
the keys the repository reads or writes. -/
structure ResultDetails where
  keyName : Option String := none
  keyMaterial : Option String := none
  sshUser : Option String := none
  isEncrypted : Bool := false
  resourceGroup : Option String := none
  adminUsername : Option String := none
  zone : Option String := none
  machineType : Option String := none
deriving DecidableEq, Repr

/-- ProvisioningResult (providers/cluster-provider.ts).  The success field
defaults to false so that the empty object the orchestrator substitutes for
a missing stored result is representable. -/
structure ProvisioningResult where
  success : Bool := false
  deploymentId : Option String := none
  resourceType : Option String := none
  instances : Option (List InstanceInfo) := none
  nodes : Option (List GenericNode) := none
  details : Option ResultDetails := none
  error : Option String := none
deriving DecidableEq, Repr

/-- Return type of ClusterProvider.destroy: { success, count?, error? }. -/
structure DestroyResult where
  success : Bool
  count : Option Nat := none
  error : Option String := none
deriving DecidableEq, Repr

/-- The cluster config blob persisted in the clusters table: built by the
create-cluster handler, spread-merged with the ProvisioningResult on deploy
success, and replaced by an error object on deploy failure. -/
structure ConfigBlob where
  name : Option String := none
  provider : Option String := none
  region : Option String := none
  nodeCount : Option Nat := none
  instanceType : Option String := none
  tags : Option (List TagKV) := none
  provisioningResult : Option ProvisioningResult := none
  error : Option String := none
deriving DecidableEq, Repr

/-- One row of the clusters table. -/
structure ClusterRow where
  id : String
  name : String
  provider : String
  region : Option String := none
  status : String
  config : ConfigBlob
  organizationId : String
deriving DecidableEq, Repr

/-- One row of the credentials table. -/
structure CredRow where
  provider : String
  encryptedData : String
  identity : Option String := none
  organizationId : String
  connectionName : String
deriving DecidableEq, Repr

/-- The provider-specific bag of raw secret fields (the untyped data
argument of saveCredentials), restricted to the fields the services read. -/
structure CredBag where
  accessKeyId : Option String := none
  secretAccessKey : Option String := none
  region : Option String := none
  tenantId : Option String := none
  clientId : Option String := none
  clientSecret : Option String := none
  subscriptionId : Option String := none
  projectId : Option String := none
  serviceAccountKey : Option String := none
  host : Option String := none
  user : Option String := none
  sshKey : Option String := none
deriving DecidableEq, Repr

/-! Model of apps/api/src/services/credentials.ts (the credential vault). -/

/-- Result shape of the per-provider credential validators
(services/validators.ts); they never throw for expected authentication
failures. -/
structure ValidationResult where
  valid : Bool
  identity : Option String := none
  error : Option String := none
deriving DecidableEq, Repr

/-- External collaborators of the credential service: the four live
validators (each a remote, read-only API call), the JSON serializer, and
the symmetric cipher used before persisting. -/
structure CredEnv where
  validateAWS : Option String → Option String → Option String → ValidationResult
  validateAzure :
    Option String → Option String → Option String → Option String → ValidationResult
  validateGCP : Option String → Option String → ValidationResult
  validateOnPrem : Option String → Option String → Option String → ValidationResult
  stringify : CredBag → String
  encrypt : String → String

/-- The reserved default tenant identifier. -/
def DEFAULT_ORG_ID : String := "00000000-0000-0000-0000-000000000000"

/-- The validator dispatch at the top of saveCredentials; none models the
`throw new Error("Unknown provider")` branch. -/
def runValidator (env : CredEnv) (provider : String) (data : CredBag) :
    Option ValidationResult :=
  if provider = "aws" then
    some (env.validateAWS data.accessKeyId data.secretAccessKey data.region)
  else if provider = "azure" then
    some (env.validateAzure data.tenantId data.clientId data.clientSecret
      data.subscriptionId)
  else if provider = "gcp" then
    some (env.validateGCP data.projectId data.serviceAccountKey)
  else if provider = "onprem" then
    some (env.validateOnPrem data.host data.user data.sshKey)
  else
    none

/-- Summary returned by a successful saveCredentials. -/
structure SaveSummary where
  success : Bool
  connectionName : String
deriving DecidableEq, Repr

/-- credentialService.saveCredentials: validate first; only on success
serialize, encrypt, delete any previous (provider, organization) row and
insert the new encrypted row.  A thrown error is an Except value; the store
is returned alongside so rejected calls observably leave it unchanged. -/
def saveCredentials (env : CredEnv) (provider : String) (data : CredBag)
    (organizationId connectionName : Option String) (store : List CredRow) :
    Except String SaveSummary × List CredRow :=
  let orgId := strOrElse organizationId DEFAULT_ORG_ID
  match runValidator env provider data with
  | none => (.error "Unknown provider", store)
  | some validation =>
    if !validation.valid then
      (.error ("Authentication Failed: " ++ jsInterp validation.error), store)
    else
      let connName := strOrElse connectionName
        (jsToUpperCase provider ++ " - " ++ strOrElse validation.identity "Connection")
      let encrypted := env.encrypt (env.stringify data)
      let afterDelete := store.filter
        (fun r => !(r.provider == provider && r.organizationId == orgId))
      (.ok { success := true, connectionName := connName },
        afterDelete ++
          [{ provider := provider
             encryptedData := encrypted
             identity := validation.identity
             organizationId := orgId
             connectionName := connName }])

/-- C1: if the validator returns valid = false, or the provider string is
unknown, saveCredentials throws an error carrying the validator's message
and the credential store is left completely unchanged: no row is deleted or
inserted by the rejected call. -/
theorem c1_rejected_save_leaves_store_unchanged
    (env : CredEnv) (provider : String) (data : CredBag)
    (organizationId connectionName : Option String) (store : List CredRow)
    (h : match runValidator env provider data with
         | none => True
         | some v => v.valid = false) :
    (saveCredentials env provider data organizationId connectionName store).2
      = store ∧
    (saveCredentials env provider data organizationId connectionName store).1
      = .error (match runValidator env provider data with
          | none => "Unknown provider"
          | some v => "Authentication Failed: " ++ jsInterp v.error) := by
  cases hv : runValidator env provider data with
  | none => simp [saveCredentials, hv]
  | some v =>
    rw [hv] at h
    constructor <;> simp [saveCredentials, hv, h]

/-- Concrete environment for the C1 witness: the AWS validator rejects. -/
def c1Env : CredEnv :=
  { validateAWS := fun _ _ _ => { valid := false, error := some "AuthFailure" },
    validateAzure := fun _ _ _ _ => { valid := true },
    validateGCP := fun _ _ => { valid := true },
    validateOnPrem := fun _ _ _ => { valid := true },
    stringify := fun _ => "raw",
    encrypt := fun s => "enc-" ++ s }

/-- Concrete rejected credential bag for the C1 witness. -/
def c1Bag : CredBag :=
  { accessKeyId := some "bad", secretAccessKey := some "bad" }

/-- A pre-existing store row for the C1 witness. -/
def c1Row : CredRow :=
  { provider := "gcp", encryptedData := "zz",
    organizationId := DEFAULT_ORG_ID, connectionName := "c" }

/-- Witness for C1 at a concrete rejecting validator and non-empty store. -/
theorem c1_witness :
    (saveCredentials c1Env "aws" c1Bag none none [c1Row]).2 = [c1Row] ∧
    (saveCredentials c1Env "aws" c1Bag none none [c1Row]).1 =
      .error ("Authentication Failed: " ++ jsInterp (some "AuthFailure")) :=
  c1_rejected_save_leaves_store_unchanged c1Env "aws" c1Bag none none [c1Row]
    rfl

/-! Model of apps/api/src/services/provisioner.ts (the orchestrator) and of
the getKubeconfig operations of the four adapters. -/

/-- The set of provider names the getProvider factory accepts. -/
def providerSupported (p : String) : Bool :=
  p == "aws" || p == "azure" || p == "gcp" || p == "onprem"

/-- External collaborators of the orchestrator: the symmetric cipher, the
JSON codec for stored credentials, the process-environment credentials, and
the network outcomes of every adapter call that crosses the network. -/
structure OrchEnv where
  encrypt : String → String
  decrypt : String → String
  jsonParse : String → CredBag
  hasEnvCredentials : String → Bool
  envCreds : String → CredBag
  deploy : String → Option String → ConfigBlob → Except String ProvisioningResult
  destroyRemote : String → String → Except String DestroyResult
  awsPublicIp : String → Option String
  sshKubeconfigFetch : String → String → String → Except String String

/-- Row lookup used by the orchestrator:
SELECT * FROM clusters WHERE id = $1. -/
def findCluster (db : List ClusterRow) (id : String) : Option ClusterRow :=
  db.find? (fun c => c.id == id)

/-- Credential row lookup used by the orchestrator:
SELECT encrypted_data FROM credentials WHERE provider = $1 (no organization
filter; the first matching row is used). -/
def lookupStoredCredRow (store : List CredRow) (provider : String) :
    Option CredRow :=
  store.find? (fun r => r.provider == provider)

/-- Credential resolution inside provisioner.getKubeconfig: environment
credentials are consulted first and only the aws branch is spelled out in
the source (the others are an elided comment, leaving an empty bag); the
fallback decrypts and parses the stored row. -/
def kubeCredentials (env : OrchEnv) (store : List CredRow) (provider : String) :
    CredBag :=
  if env.hasEnvCredentials provider then
    (if provider = "aws" then env.envCreds "aws" else {})
  else
    match lookupStoredCredRow store provider with
    | some r => env.jsonParse (env.decrypt r.encryptedData)
    | none => {}

/-- Credential resolution inside provisioner.destroyCluster: environment
credentials for every provider via getEnvCredentials, else the decrypted
stored row. -/
def destroyCredentials (env : OrchEnv) (store : List CredRow)
    (provider : String) : CredBag :=
  if env.hasEnvCredentials provider then env.envCreds provider
  else
    match lookupStoredCredRow store provider with
    | some r => env.jsonParse (env.decrypt r.encryptedData)
    | none => {}

/-- The private retrieveKubeconfig of the AWS adapter: open SSH, read
/etc/rancher/k3s/k3s.yaml, and rewrite every loopback address to the public
one.  Both SSH failures and a non-empty stderr surface through the
environment outcome and are wrapped by the catch block. -/
def awsRetrieveKubeconfig (env : OrchEnv) (publicIp username privateKey : String) :
    Except String String :=
  match env.sshKubeconfigFetch publicIp username privateKey with
  | .ok stdout => .ok (stdout.replace "127.0.0.1" publicIp)
  | .error e => .error ("Kubeconfig Retrieval Failed: " ++ e)

/-- AWSProvider.getKubeconfig: pick the first instance, look up its current
public IP remotely, require key material, then fetch over SSH. -/
def awsGetKubeconfig (env : OrchEnv) (pr : ProvisioningResult) :
    Except String String :=
  match pr.instances.getD [] with
  | [] => .error "No instances to retrieve kubeconfig from"
  | inst :: _ =>
    if inst.instanceId = "" then .error "Instance ID missing"
    else
      match env.awsPublicIp inst.instanceId with
      | none => .error "Instance has no Public IP yet"
      | some ip =>
        if ip = "" then .error "Instance has no Public IP yet"
        else
          let sshUser := strOrElse (pr.details.bind ResultDetails.sshUser) "ubuntu"
          match pr.details.bind ResultDetails.keyMaterial with
          | none => .error "No SSH Key available to retrieve kubeconfig"
          | some pk =>
            if pk = "" then .error "No SSH Key available to retrieve kubeconfig"
            else awsRetrieveKubeconfig env ip sshUser pk

/-- AzureProvider.getKubeconfig: unconditionally not implemented. -/
def azureGetKubeconfigAdapter (_pr : ProvisioningResult) : Except String String :=
  .error "Azure Kubeconfig retrieval not implemented in MVP yet."

/-- GCPProvider.getKubeconfig: unconditionally not implemented. -/
def gcpGetKubeconfigAdapter (_pr : ProvisioningResult) : Except String String :=
  .error "GCP Kubeconfig retrieval not implemented in MVP yet."

/-- OnPremProvider.getKubeconfig: requires host, user and key from the
adapter configuration, then fetches over SSH and rewrites loopback. -/
def onpremGetKubeconfig (env : OrchEnv) (creds : CredBag)
    (_pr : ProvisioningResult) : Except String String :=
  if !strTruthy creds.host || !strTruthy creds.user || !strTruthy creds.sshKey
  then .error "Missing OnPrem connection details"
  else
    match env.sshKubeconfigFetch (creds.host.getD "") (creds.user.getD "")
        (creds.sshKey.getD "") with
    | .ok stdout => .ok (stdout.replace "127.0.0.1" (creds.host.getD ""))
    | .error e => .error ("OnPrem Kubeconfig retrieval failed: " ++ e)

/-- Whether an Except value is a success. -/
def exceptIsOk {ε α : Type} : Except ε α → Bool
  | .ok _ => true
  | .error _ => false

/-- Dispatch of getKubeconfig through the getProvider factory. -/
def adapterGetKubeconfig (env : OrchEnv) (provider : String) (creds : CredBag)
    (pr : ProvisioningResult) : Except String String :=
  if provider = "aws" then awsGetKubeconfig env pr
  else if provider = "azure" then azureGetKubeconfigAdapter pr
  else if provider = "gcp" then gcpGetKubeconfigAdapter pr
  else if provider = "onprem" then onpremGetKubeconfig env creds pr
  else .error ("Provider " ++ provider ++ " not supported")

/-- The SECURITY block of provisioner.getKubeconfig: when the stored result
carries encrypted key material, build a deep clone with the key material
decrypted; otherwise pass the stored result through unchanged. -/
def decryptResultCopy (dec : String → String) (pr : ProvisioningResult) :
    ProvisioningResult :=
  match pr.details with
  | some d =>
    match d.keyMaterial with
    | some km =>
      if d.isEncrypted && (km != "") then
        { pr with details := some { d with keyMaterial := some (dec km) } }
      else pr
    | none => pr
  | none => pr

/-- provisioner.getKubeconfig: load the cluster record, resolve credentials,
rebuild the adapter, decrypt a copy of the stored result if needed, and
delegate.  The clusters table is returned so that the absence of writes is
observable. -/
def getKubeconfigOrch (env : OrchEnv) (db : List ClusterRow)
    (credStore : List CredRow) (clusterId : String) :
    Except String String × List ClusterRow :=
  match findCluster db clusterId with
  | none => (.error "Cluster not found", db)
  | some cluster =>
    let creds := kubeCredentials env credStore cluster.provider
    (adapterGetKubeconfig env cluster.provider creds
      (decryptResultCopy env.decrypt
        (cluster.config.provisioningResult.getD {})), db)

/-- One UPDATE clusters SET status, config WHERE id statement. -/
structure ClusterWrite where
  id : String
  status : String
  config : ConfigBlob
deriving DecidableEq, Repr

/-- The encrypt-key-material step of provisionCluster: a truthy
details.keyMaterial is replaced by its encryption and flagged encrypted
before the result is persisted. -/
def redactResult (enc : String → String) (r : ProvisioningResult) :
    ProvisioningResult :=
  match r.details with
  | some d =>
    match d.keyMaterial with
    | some km =>
      if km != "" then
        let d2 := { d with keyMaterial := some (enc km), isEncrypted := true }
        { r with details := some d2 }
      else r
    | none => r
  | none => r

/-- The deploy step of provisionCluster: the getProvider factory (which
rejects unknown provider names) followed by the adapter deploy call, whose
network outcome is supplied by the environment. -/
def deployOutcomeFor (env : OrchEnv) (cluster : ClusterRow) :
    Except String ProvisioningResult :=
  if providerSupported cluster.provider then
    env.deploy cluster.provider cluster.config.region
      { cluster.config with name := some cluster.name }
  else
    .error ("Provider " ++ cluster.provider ++ " not supported")

/-- provisioner.provisionCluster as the list of clusters-table writes it
performs: on deploy success exactly one update to status active with the
spread-merged config (key material redacted first); on any failure exactly
one update to status error with the config replaced by the error object. -/
def provisionClusterWrites (env : OrchEnv) (cluster : ClusterRow) :
    List ClusterWrite :=
  match deployOutcomeFor env cluster with
  | .ok result =>
    [{ id := cluster.id
       status := "active"
       config := { cluster.config with
         provisioningResult := some (redactResult env.encrypt result) } }]
  | .error msg =>
    [{ id := cluster.id, status := "error", config := { error := some msg } }]

/-- Request body fields of the POST /clusters handler. -/
structure CreateClusterInput where
  name : String
  provider : String
  region : Option String := none
  nodeCount : Option Nat := none
deriving DecidableEq, Repr

/-- The POST /clusters handler: build the config blob (nodeCount falls back
to 3 when falsy, region to null) and insert the row with status pending. -/
def createClusterRow (input : CreateClusterInput) (id organizationId : String) :
    ClusterRow :=
  let nodeCount := match input.nodeCount with
    | some n => if n = 0 then 3 else n
    | none => 3
  let region := match input.region with
    | some r => if r = "" then none else some r
    | none => none
  { id := id
    name := input.name
    provider := input.provider
    region := region
    status := "pending"
    config := { name := some input.name
                provider := some input.provider
                region := region
                nodeCount := some nodeCount }
    organizationId := organizationId }

/-- provisioner.destroyCluster: the thrown-or-returned value, the clusters
table afterwards, and the remote destroy call issued (provider and
deployment id), if any.  The outcome of the remote call is swallowed by the
catch block, so it does not appear in the output at all. -/
def destroyCluster (env : OrchEnv) (db : List ClusterRow)
    (credStore : List CredRow) (clusterId : String) :
    Except String Bool × List ClusterRow × Option (String × String) :=
  match findCluster db clusterId with
  | none => (.error "Cluster not found", db, none)
  | some cluster =>
    let depOpt := cluster.config.provisioningResult.bind
      ProvisioningResult.deploymentId
    if !strTruthy depOpt then
      (.ok true, db.filter (fun c => c.id != clusterId), none)
    else
      let dep := depOpt.getD ""
      let _creds := destroyCredentials env credStore cluster.provider
      let remoteCall :=
        if providerSupported cluster.provider then some (cluster.provider, dep)
        else none
      (.ok true, db.filter (fun c => c.id != clusterId), remoteCall)

/-- C2: every cluster record is created with status pending, and
provisionCluster performs exactly one status write per creation attempt:
to active when the adapter deploy succeeds, to error otherwise; since there
is exactly one write, no creation attempt can move a cluster from active to
error or back. -/
theorem c2_status_pending_then_single_transition
    (input : CreateClusterInput) (id orgId : String)
    (env : OrchEnv) (cluster : ClusterRow) :
    (createClusterRow input id orgId).status = "pending" ∧
    ∃ w, provisionClusterWrites env cluster = [w] ∧ w.id = cluster.id ∧
      w.status = (match deployOutcomeFor env cluster with
        | .ok _ => "active"
        | .error _ => "error") := by
  refine ⟨rfl, ?_⟩
  cases h : deployOutcomeFor env cluster with
  | ok r =>
    unfold provisionClusterWrites
    rw [h]
    exact ⟨_, rfl, rfl, rfl⟩
  | error m =>
    unfold provisionClusterWrites
    rw [h]
    exact ⟨_, rfl, rfl, rfl⟩

/-- C10: the azure and gcp adapters unconditionally fail getKubeconfig with
a not-implemented error for every input, so under adapter dispatch neither
can ever return a kubeconfig document; only aws and onprem can. -/
theorem c10_azure_gcp_kubeconfig_not_implemented
    (pr : ProvisioningResult) (env : OrchEnv) (creds : CredBag) :
    azureGetKubeconfigAdapter pr =
      .error "Azure Kubeconfig retrieval not implemented in MVP yet." ∧
    gcpGetKubeconfigAdapter pr =
      .error "GCP Kubeconfig retrieval not implemented in MVP yet." ∧
    exceptIsOk (adapterGetKubeconfig env "azure" creds pr) = false ∧
    exceptIsOk (adapterGetKubeconfig env "gcp" creds pr) = false :=
  ⟨rfl, rfl, rfl, rfl⟩

/-- C7: destroying an existing cluster whose config never recorded a
deployment identifier deletes the record without any remote call and
returns true; with a recorded deployment identifier the adapter destroy is
invoked and the record is deleted and true returned regardless of the
outcome of the remote destroy. -/
theorem c7_destroy_always_deletes_record
    (env : OrchEnv) (db : List ClusterRow) (credStore : List CredRow)
    (id : String) (c : ClusterRow) (hc : findCluster db id = some c) :
    (strTruthy (c.config.provisioningResult.bind
        ProvisioningResult.deploymentId) = false →
      destroyCluster env db credStore id =
        (.ok true, db.filter (fun x => x.id != id), none)) ∧
    (∀ dep, c.config.provisioningResult.bind
        ProvisioningResult.deploymentId = some dep →
      dep ≠ "" → providerSupported c.provider = true →
      destroyCluster env db credStore id =
        (.ok true, db.filter (fun x => x.id != id), some (c.provider, dep))) := by
  constructor
  · intro h
    simp [destroyCluster, hc, h]
  · intro dep hdep hne hsupp
    simp [destroyCluster, hc, hdep, hsupp, strTruthy, hne]

/-- Trivial concrete orchestrator environment used by several witnesses. -/
def witOrchEnv : OrchEnv :=
  { encrypt := fun s => "enc-" ++ s
    decrypt := fun s => "dec-" ++ s
    jsonParse := fun _ => {}
    hasEnvCredentials := fun _ => false
    envCreds := fun _ => {}
    deploy := fun _ _ _ => .error "network down"
    destroyRemote := fun _ _ => .error "boom"
    awsPublicIp := fun _ => none
    sshKubeconfigFetch := fun _ _ _ => .error "no route" }

/-- A cluster row whose provisioning never recorded a deployment id. -/
def witClusterNoDep : ClusterRow :=
  { id := "c1"
    name := "demo"
    provider := "aws"
    status := "error"
    config := {}
    organizationId := DEFAULT_ORG_ID }

/-- A cluster row with a recorded deployment id. -/
def witClusterWithDep : ClusterRow :=
  { id := "c2"
    name := "demo2"
    provider := "aws"
    status := "active"
    config := { provisioningResult := some { success := true, deploymentId := some "d-9" } }
    organizationId := DEFAULT_ORG_ID }

/-- Witness for C7 at a concrete two-row table, covering both branches. -/
theorem c7_witness :
    destroyCluster witOrchEnv [witClusterNoDep, witClusterWithDep] [] "c1" =
      (.ok true, [witClusterWithDep], none) ∧
    destroyCluster witOrchEnv [witClusterNoDep, witClusterWithDep] [] "c2" =
      (.ok true, [witClusterNoDep], some ("aws", "d-9")) := by
  constructor
  · have h := (c7_destroy_always_deletes_record witOrchEnv
      [witClusterNoDep, witClusterWithDep] [] "c1" witClusterNoDep
      (by decide)).1 (by decide)
    rw [h]
    decide
  · have h := (c7_destroy_always_deletes_record witOrchEnv
      [witClusterNoDep, witClusterWithDep] [] "c2" witClusterWithDep
      (by decide)).2 "d-9" (by decide) (by decide) (by decide)
    rw [h]
    decide

/-- C9: when the stored result carries encrypted key material, getKubeconfig
delegates to the adapter a decrypted in-memory copy of the stored
ProvisioningResult, and the clusters table, including the persisted
encrypted key material, is not mutated by the call. -/
theorem c9_kubeconfig_decrypts_copy_without_mutation
    (env : OrchEnv) (db : List ClusterRow) (credStore : List CredRow)
    (id : String) (c : ClusterRow) (pr : ProvisioningResult)
    (d : ResultDetails) (km : String)
    (hc : findCluster db id = some c)
    (hpr : c.config.provisioningResult = some pr)
    (hd : pr.details = some d) (henc : d.isEncrypted = true)
    (hkm : d.keyMaterial = some km) (hne : km ≠ "") :
    (getKubeconfigOrch env db credStore id).2 = db ∧
    getKubeconfigOrch env db credStore id =
      (adapterGetKubeconfig env c.provider
        (kubeCredentials env credStore c.provider)
        { pr with details := some { d with keyMaterial := some (env.decrypt km) } },
       db) := by
  have hcopy : decryptResultCopy env.decrypt pr =
      { pr with details := some { d with keyMaterial := some (env.decrypt km) } } := by
    simp [decryptResultCopy, hd, hkm, henc, hne]
  constructor
  · simp [getKubeconfigOrch, hc]
  · simp [getKubeconfigOrch, hc, hpr, hcopy]

/-- A stored ProvisioningResult carrying encrypted key material. -/
def witPrEncrypted : ProvisioningResult :=
  { success := true
    deploymentId := some "d-5"
    details := some { keyMaterial := some "SECRET", isEncrypted := true } }

/-- A cluster row persisting witPrEncrypted. -/
def witClusterEncrypted : ClusterRow :=
  { id := "c3"
    name := "demo3"
    provider := "aws"
    status := "active"
    config := { provisioningResult := some witPrEncrypted }
    organizationId := DEFAULT_ORG_ID }

/-- Witness for C9 at a concrete cluster with encrypted key material. -/
theorem c9_witness :
    (getKubeconfigOrch witOrchEnv [witClusterEncrypted] [] "c3").2 =
      [witClusterEncrypted] ∧
    getKubeconfigOrch witOrchEnv [witClusterEncrypted] [] "c3" =
      (adapterGetKubeconfig witOrchEnv "aws" (kubeCredentials witOrchEnv [] "aws")
        { witPrEncrypted with details := some { keyMaterial := some "dec-SECRET", isEncrypted := true } },
       [witClusterEncrypted]) := by
  have h := c9_kubeconfig_decrypts_copy_without_mutation witOrchEnv
    [witClusterEncrypted] [] "c3" witClusterEncrypted witPrEncrypted
    { keyMaterial := some "SECRET", isEncrypted := true } "SECRET"
    (by decide) (by decide) (by decide) (by decide) (by decide) (by decide)
  exact h

/-- The decrypt-a-copy step only touches the details map: the node list is
the one of the stored result. -/
theorem decryptResultCopy_instances (dec : String → String)
    (pr : ProvisioningResult) :
    (decryptResultCopy dec pr).instances = pr.instances := by
  unfold decryptResultCopy
  split
  · split
    · split <;> rfl
    · rfl
  · rfl

/-- When the stored result carries no truthy key material the decrypt-a-copy
step is the identity. -/
theorem decryptResultCopy_of_no_key (dec : String → String)
    (pr : ProvisioningResult)
    (h : strTruthy (pr.details.bind ResultDetails.keyMaterial) = false) :
    decryptResultCopy dec pr = pr := by
  obtain ⟨s, dep, rt, insts, nds, det, err⟩ := pr
  cases det with
  | none => rfl
  | some d =>
    obtain ⟨kn, km, su, ienc, rg, au, zn, mt⟩ := d
    cases km with
    | none => rfl
    | some k =>
      have h2 : (k != "") = false := h
      unfold decryptResultCopy
      simp [h2]

/-- C8: when the representative (first) node of the stored result has no
externally reachable public address, getKubeconfig on an aws cluster fails
with the NodeNotReady error; when the address is there but no private key
material was supplied it fails with the KeyMaterialMissing error; in both
cases the clusters table, and hence the persisted status, is untouched. -/
theorem c8_kubeconfig_failures_leave_status_untouched
    (env : OrchEnv) (db : List ClusterRow) (credStore : List CredRow)
    (id : String) (c : ClusterRow) (pr : ProvisioningResult)
    (inst : InstanceInfo) (rest : List InstanceInfo)
    (hc : findCluster db id = some c) (hprov : c.provider = "aws")
    (hpr : c.config.provisioningResult = some pr)
    (hinst : pr.instances = some (inst :: rest))
    (hid : inst.instanceId ≠ "") :
    (env.awsPublicIp inst.instanceId = none →
      getKubeconfigOrch env db credStore id =
        (.error "Instance has no Public IP yet", db)) ∧
    (∀ ip, env.awsPublicIp inst.instanceId = some ip → ip ≠ "" →
      strTruthy (pr.details.bind ResultDetails.keyMaterial) = false →
      getKubeconfigOrch env db credStore id =
        (.error "No SSH Key available to retrieve kubeconfig", db)) := by
  have hinstArg : (decryptResultCopy env.decrypt
      (c.config.provisioningResult.getD {})).instances = some (inst :: rest) := by
    rw [hpr, Option.getD_some, decryptResultCopy_instances, hinst]
  constructor
  · intro hip
    unfold getKubeconfigOrch
    rw [hc]
    dsimp only
    rw [hprov]
    simp only [adapterGetKubeconfig, if_pos]
    unfold awsGetKubeconfig
    rw [hinstArg]
    dsimp only [Option.getD_some]
    rw [if_neg hid, hip]
  · intro ip hip hipne hkmf
    unfold getKubeconfigOrch
    rw [hc]
    dsimp only
    rw [hprov]
    simp only [adapterGetKubeconfig, if_pos]
    have harg : decryptResultCopy env.decrypt
        (c.config.provisioningResult.getD {}) = pr := by
      rw [hpr, Option.getD_some]
      exact decryptResultCopy_of_no_key env.decrypt pr hkmf
    rw [harg]
    unfold awsGetKubeconfig
    rw [hinst]
    dsimp only [Option.getD_some]
    rw [if_neg hid, hip]
    dsimp only
    rw [if_neg hipne]
    cases hk : pr.details.bind ResultDetails.keyMaterial with
    | none => rfl
    | some pk =>
      rw [hk] at hkmf
      have h2 : (pk != "") = false := hkmf
      have h3 : pk = "" := by simpa using h2
      simp [h3]

/-- A stored ProvisioningResult with one instance and no key material. -/
def witPrNoKey : ProvisioningResult :=
  { success := true
    deploymentId := some "d-7"
    instances := some [{ instanceId := "i-1" }] }

/-- An aws cluster row persisting witPrNoKey. -/
def witClusterNoKey : ClusterRow :=
  { id := "c4"
    name := "demo4"
    provider := "aws"
    status := "active"
    config := { provisioningResult := some witPrNoKey }
    organizationId := DEFAULT_ORG_ID }

/-- Concrete environment in which instance i-1 has a public IP. -/
def witOrchEnvIp : OrchEnv :=
  { witOrchEnv with awsPublicIp := fun i => if i = "i-1" then some "1.2.3.4" else none }

/-- Witness for C8: both failure branches at concrete clusters. -/
theorem c8_witness :
    getKubeconfigOrch witOrchEnv [witClusterNoKey] [] "c4" =
      (.error "Instance has no Public IP yet", [witClusterNoKey]) ∧
    getKubeconfigOrch witOrchEnvIp [witClusterNoKey] [] "c4" =
      (.error "No SSH Key available to retrieve kubeconfig", [witClusterNoKey]) := by
  constructor
  · exact (c8_kubeconfig_failures_leave_status_untouched witOrchEnv
      [witClusterNoKey] [] "c4" witClusterNoKey witPrNoKey
      { instanceId := "i-1" } [] (by decide) (by decide) (by decide)
      (by decide) (by decide)).1 (by decide)
  · exact (c8_kubeconfig_failures_leave_status_untouched witOrchEnvIp
      [witClusterNoKey] [] "c4" witClusterNoKey witPrNoKey
      { instanceId := "i-1" } [] (by decide) (by decide) (by decide)
      (by decide) (by decide)).2 "1.2.3.4" (by decide) (by decide) (by decide)

/-- C3: no secret reaches the persistent store unencrypted.  Every row a
saveCredentials call adds to the credential store carries as encrypted_data
exactly the symmetric encryption of the serialized credential bag; and when
a deploy result carries truthy key material in its details map,
provisionCluster persists it with that field replaced by its encryption and
flagged isEncrypted. -/
theorem c3_no_plaintext_secret_persisted
    (cenv : CredEnv) (provider : String) (data : CredBag)
    (orgId cn : Option String) (store : List CredRow) (row : CredRow)
    (env : OrchEnv) (cluster : ClusterRow) (r : ProvisioningResult)
    (d : ResultDetails) (km : String) (w : ClusterWrite)
    (hrow : row ∈ (saveCredentials cenv provider data orgId cn store).2)
    (hnew : row ∉ store)
    (hok : deployOutcomeFor env cluster = .ok r)
    (hd : r.details = some d) (hkm : d.keyMaterial = some km) (hne : km ≠ "")
    (hw : w ∈ provisionClusterWrites env cluster) :
    row.encryptedData = cenv.encrypt (cenv.stringify data) ∧
    ∃ pr2 d2, w.config.provisioningResult = some pr2 ∧ pr2.details = some d2 ∧
      d2.keyMaterial = some (env.encrypt km) ∧ d2.isEncrypted = true := by
  constructor
  · unfold saveCredentials at hrow
    cases hv : runValidator cenv provider data with
    | none =>
      rw [hv] at hrow
      exact absurd hrow hnew
    | some v =>
      rw [hv] at hrow
      cases hval : v.valid with
      | false =>
        simp only [hval, Bool.not_false, if_pos] at hrow
        exact absurd hrow hnew
      | true =>
        simp only [hval, Bool.not_true, Bool.false_eq_true, if_false] at hrow
        rcases List.mem_append.mp hrow with h | h
        · exact absurd (List.mem_of_mem_filter h) hnew
        · simp only [List.mem_singleton] at h
          subst h
          rfl
  · unfold provisionClusterWrites at hw
    rw [hok] at hw
    simp only [List.mem_singleton] at hw
    subst hw
    have hred : redactResult env.encrypt r =
        { r with details := some { d with keyMaterial := some (env.encrypt km), isEncrypted := true } } := by
      simp [redactResult, hd, hkm, hne]
    exact ⟨redactResult env.encrypt r,
      { d with keyMaterial := some (env.encrypt km), isEncrypted := true },
      rfl, by rw [hred], rfl, rfl⟩

/-- Credential environment for the C3 witness: the AWS validator accepts. -/
def c3CredEnv : CredEnv :=
  { validateAWS := fun _ _ _ => { valid := true, identity := some "arn-user" }
    validateAzure := fun _ _ _ _ => { valid := false }
    validateGCP := fun _ _ => { valid := false }
    validateOnPrem := fun _ _ _ => { valid := false }
    stringify := fun _ => "serialized-bag"
    encrypt := fun s => "enc-" ++ s }

/-- Accepted credential bag for the C3 witness. -/
def c3Bag : CredBag :=
  { accessKeyId := some "AKIA", secretAccessKey := some "sk" }

/-- The row the C3 witness expects saveCredentials to insert. -/
def c3Row : CredRow :=
  { provider := "aws"
    encryptedData := "enc-serialized-bag"
    identity := some "arn-user"
    organizationId := DEFAULT_ORG_ID
    connectionName := "AWS - arn-user" }

/-- Deploy result with plaintext key material for the C3 witness. -/
def c3DeployResult : ProvisioningResult :=
  { success := true
    deploymentId := some "d-1"
    details := some { keyName := some "key-1", keyMaterial := some "PEM", sshUser := some "ubuntu" } }

/-- Orchestrator environment whose deploy succeeds with c3DeployResult. -/
def c3OrchEnv : OrchEnv :=
  { witOrchEnv with deploy := fun _ _ _ => .ok c3DeployResult }

/-- Cluster row being provisioned in the C3 witness. -/
def c3Cluster : ClusterRow :=
  { id := "c9"
    name := "n"
    provider := "aws"
    status := "pending"
    config := {}
    organizationId := DEFAULT_ORG_ID }

/-- The single write the C3 witness expects provisionCluster to perform. -/
def c3Write : ClusterWrite :=
  { id := "c9"
    status := "active"
    config := { provisioningResult := some { success := true, deploymentId := some "d-1", details := some { keyName := some "key-1", keyMaterial := some "enc-PEM", sshUser := some "ubuntu", isEncrypted := true } } } }

/-- Witness for C3 at concrete environments on both persistence paths. -/
theorem c3_witness :
    c3Row.encryptedData = c3CredEnv.encrypt (c3CredEnv.stringify c3Bag) ∧
    ∃ pr2 d2, c3Write.config.provisioningResult = some pr2 ∧
      pr2.details = some d2 ∧
      d2.keyMaterial = some (c3OrchEnv.encrypt "PEM") ∧
      d2.isEncrypted = true :=
  c3_no_plaintext_secret_persisted c3CredEnv "aws" c3Bag none none [] c3Row
    c3OrchEnv c3Cluster c3DeployResult
    { keyName := some "key-1", keyMaterial := some "PEM", sshUser := some "ubuntu" }
    "PEM" c3Write (by decide) (by decide) (by decide) (by decide) (by decide)
    (by decide) (by decide)

/-! Models of the adapter destroy operations (providers/aws-provider.ts,
gcp-provider.ts, and the Azure and OnPrem adapters beside them).  Each
remote cloud is explicit state: the resources carrying the tags or labels
the adapters set at deploy time and query at destroy time. -/

/-- One EC2 instance as seen by the AWS tag index. -/
structure AwsCloudInstance where
  instanceId : String
  deploymentId : String
  stateName : String
deriving DecidableEq, Repr

/-- The instance states the AWS destroy filter treats as live. -/
def awsActiveStates : List String := ["running", "pending", "stopped", "stopping"]

/-- DescribeInstances filtered by tag:DeploymentId and
instance-state-name, collecting the instance ids. -/
def awsTaggedActive (st : List AwsCloudInstance) (dep : String) : List String :=
  (st.filter (fun i =>
    i.deploymentId == dep && awsActiveStates.contains i.stateName)).map
    AwsCloudInstance.instanceId

/-- AWSProvider.destroy: reject a falsy deployment id with a throw, discover
instances through the DeploymentId tag restricted to live states, terminate
them when any were found (modelled as flipping their state), and return
success together with the discovered count. -/
def awsDestroy (st : List AwsCloudInstance) (deploymentId : String) :
    Except String DestroyResult × List AwsCloudInstance :=
  if deploymentId = "" then
    (.error "No deployment ID provided for destruction", st)
  else
    let ids := awsTaggedActive st deploymentId
    if ids.isEmpty then
      (.ok { success := true, count := some ids.length }, st)
    else
      (.ok { success := true, count := some ids.length },
        st.map (fun i =>
          if ids.contains i.instanceId then { i with stateName := "shutting-down" }
          else i))

/-- One GCE instance as seen by the GCP label index. -/
structure GcpCloudInstance where
  name : String
  deploymentId : String
deriving DecidableEq, Repr

/-- instances.list filtered by labels.deployment_id. -/
def gcpTagged (st : List GcpCloudInstance) (dep : String) : List GcpCloudInstance :=
  st.filter (fun i => i.deploymentId == dep)

/-- GCPProvider.destroy: a falsy id returns success false with error No ID
(a return value, not a throw); otherwise list by label, delete every listed
instance, and return success with the listed count. -/
def gcpDestroy (st : List GcpCloudInstance) (deploymentId : String) :
    Except String DestroyResult × List GcpCloudInstance :=
  if deploymentId = "" then
    (.ok { success := false, error := some "No ID" }, st)
  else
    let found := gcpTagged st deploymentId
    (.ok { success := true, count := some found.length },
      st.filter (fun i => !(i.deploymentId == deploymentId)))

/-- One Azure resource of the fixed auto-deploy resource group. -/
structure AzCloudResource where
  id : String
  name : String
  resourceType : String
  deploymentTag : Option String
deriving DecidableEq, Repr

/-- listByResourceGroup filtered by tagName DeploymentId and tagValue. -/
def azTagged (st : List AzCloudResource) (dep : String) : List AzCloudResource :=
  st.filter (fun r => r.deploymentTag == some dep)

/-- AzureProvider.destroy: a falsy id returns success false with error No
ID; otherwise list the tagged resources of the fixed resource group, delete
each (individual delete failures are swallowed), and return success with no
count field at all. -/
def azureDestroy (st : List AzCloudResource) (deploymentId : String) :
    Except String DestroyResult × List AzCloudResource :=
  if deploymentId = "" then
    (.ok { success := false, error := some "No ID" }, st)
  else
    (.ok { success := true },
      st.filter (fun r => !(r.deploymentTag == some deploymentId)))

/-- OnPremProvider.destroy: an unconditional no-op success without count. -/
def onpremDestroy (_deploymentId : String) : Except String DestroyResult :=
  .ok { success := true }

/-- The count field of a destroy outcome, when the call did not throw. -/
def destroyCount : Except String DestroyResult → Option Nat
  | .ok r => r.count
  | .error _ => none

/-- C4 counterexample: on the azure adapter, destroying a deployment whose
tagged resources are already gone succeeds but carries no count field at
all, so the claimed count = 0 is false at this concrete input. -/
theorem c4_counterexample_azure_destroy_has_no_count :
    (azureDestroy [] "d-1").1 = .ok { success := true } ∧
    destroyCount (azureDestroy [] "d-1").1 ≠ some 0 := by
  constructor
  · rfl
  · decide

/-- Filtering with the negated predicate of a filter that kept nothing
returns the whole list. -/
theorem filter_not_of_filter_eq_nil {α : Type} (l : List α) (p : α → Bool)
    (h : l.filter p = []) : l.filter (fun x => !p x) = l := by
  induction l with
  | nil => rfl
  | cons a as ih =>
    cases hp : p a with
    | true => simp [List.filter_cons, hp] at h
    | false =>
      simp only [List.filter_cons, hp] at h
      simp only [List.filter_cons, hp, Bool.not_false, if_pos]
      rw [ih h]

/-- C4 amended: on every adapter, destroying a deployment whose tagged
resources are already gone never throws and succeeds, also when repeated;
the aws and gcp adapters report count = 0, while the azure and onprem
adapters return success with no count field. -/
theorem c4_amended_destroy_idempotent_on_empty
    (stA : List AwsCloudInstance) (stG : List GcpCloudInstance)
    (stZ : List AzCloudResource) (dep : String) (hne : dep ≠ "")
    (hA : awsTaggedActive stA dep = []) (hG : gcpTagged stG dep = [])
    (hZ : azTagged stZ dep = []) :
    awsDestroy stA dep = (.ok { success := true, count := some 0 }, stA) ∧
    awsDestroy (awsDestroy stA dep).2 dep =
      (.ok { success := true, count := some 0 }, stA) ∧
    gcpDestroy stG dep = (.ok { success := true, count := some 0 }, stG) ∧
    gcpDestroy (gcpDestroy stG dep).2 dep =
      (.ok { success := true, count := some 0 }, stG) ∧
    azureDestroy stZ dep = (.ok { success := true }, stZ) ∧
    azureDestroy (azureDestroy stZ dep).2 dep = (.ok { success := true }, stZ) ∧
    onpremDestroy dep = .ok { success := true } := by
  have h1 : awsDestroy stA dep = (.ok { success := true, count := some 0 }, stA) := by
    unfold awsDestroy
    rw [if_neg hne, hA]
    rfl
  have h2 : gcpDestroy stG dep = (.ok { success := true, count := some 0 }, stG) := by
    unfold gcpDestroy
    rw [if_neg hne, hG]
    have := filter_not_of_filter_eq_nil stG (fun i => i.deploymentId == dep) hG
    simp only [this]
    rfl
  have h3 : azureDestroy stZ dep = (.ok { success := true }, stZ) := by
    unfold azureDestroy
    rw [if_neg hne]
    have := filter_not_of_filter_eq_nil stZ
      (fun r => r.deploymentTag == some dep) hZ
    simp only [this]
  refine ⟨h1, ?_, h2, ?_, h3, ?_, rfl⟩
  · rw [h1]
    exact h1
  · rw [h2]
    exact h2
  · rw [h3]
    exact h3

/-- Concrete AWS cloud state with no resources tagged d-1. -/
def c4AwsState : List AwsCloudInstance :=
  [{ instanceId := "i-9", deploymentId := "other", stateName := "running" }]

/-- Concrete GCP cloud state with no resources labelled d-1. -/
def c4GcpState : List GcpCloudInstance :=
  [{ name := "g-1", deploymentId := "other" }]

/-- Concrete Azure cloud state with no resources tagged d-1. -/
def c4AzState : List AzCloudResource :=
  [{ id := "r-1", name := "n", resourceType := "vm", deploymentTag := some "other" }]

/-- Witness for the amended C4 at concrete already-empty cloud states. -/
theorem c4_witness :
    awsDestroy c4AwsState "d-1" =
      (.ok { success := true, count := some 0 }, c4AwsState) ∧
    awsDestroy (awsDestroy c4AwsState "d-1").2 "d-1" =
      (.ok { success := true, count := some 0 }, c4AwsState) ∧
    gcpDestroy c4GcpState "d-1" =
      (.ok { success := true, count := some 0 }, c4GcpState) ∧
    gcpDestroy (gcpDestroy c4GcpState "d-1").2 "d-1" =
      (.ok { success := true, count := some 0 }, c4GcpState) ∧
    azureDestroy c4AzState "d-1" = (.ok { success := true }, c4AzState) ∧
    azureDestroy (azureDestroy c4AzState "d-1").2 "d-1" =
      (.ok { success := true }, c4AzState) ∧
    onpremDestroy "d-1" = .ok { success := true } :=
  c4_amended_destroy_idempotent_on_empty c4AwsState c4GcpState c4AzState "d-1"
    (by decide) (by decide) (by decide) (by decide)

/-! Models of the adapter deploy operations.  The adapters receive the
cluster config blob with the name spread in; remote create calls are
environment functions of the request data actually sent, so that the tags
carried by each create request are stated about the requests themselves. -/

/-- String.prototype.slice(0, n) for the ASCII strings used here. -/
def jsSlice (s : String) (n : Nat) : String :=
  String.mk (s.data.take n)

/-- Except.mapM specialised to lists, sequencing left to right (the model
of awaiting a Promise.all whose members are settled in order). -/
def exceptMapM {ε α β : Type} (f : α → Except ε β) : List α → Except ε (List β)
  | [] => .ok []
  | a :: as =>
    match f a with
    | .error e => .error e
    | .ok b =>
      match exceptMapM f as with
      | .error e => .error e
      | .ok bs => .ok (b :: bs)

theorem exceptMapM_ok_length {ε α β : Type} (f : α → Except ε β) (l : List α) :
    ∀ l', exceptMapM f l = .ok l' → l'.length = l.length := by
  induction l with
  | nil =>
    intro l' h
    simp only [exceptMapM, Except.ok.injEq] at h
    subst h
    rfl
  | cons a as ih =>
    intro l' h
    unfold exceptMapM at h
    cases hf : f a with
    | error e =>
      rw [hf] at h
      exact absurd h (by simp)
    | ok b =>
      rw [hf] at h
      cases hm : exceptMapM f as with
      | error e =>
        rw [hm] at h
        exact absurd h (by simp)
      | ok bs =>
        rw [hm] at h
        simp only [Except.ok.injEq] at h
        subst h
        simp [ih bs hm]

/-- One raw instance of a RunInstances response. -/
structure AwsRawInstance where
  instanceId : Option String := none
  privateIpAddress : Option String := none
  stateName : Option String := none
deriving DecidableEq, Repr

/-- The RunInstances request the AWS deploy issues (the user data script is
carried raw; its base64 transport encoding is the SDK's concern). -/
structure RunInstancesReq where
  imageId : String
  instanceType : String
  minCount : Nat
  maxCount : Nat
  keyName : String
  securityGroupIds : Option (List String)
  userDataScript : String
  tags : List TagKV
deriving DecidableEq, Repr

/-- Network outcomes of one AWS deploy call: the fresh uuid, the SSM AMI
lookup, the key pair creation (caught on failure), the security group
creation including ingress authorization (caught on failure), and the
RunInstances call as a function of the issued request. -/
structure AwsDeployEnv where
  uuid : String
  amiOutcome : Except String (Option String)
  keyPairOutcome : Except String (Option String)
  sgOutcome : Except String (Option String)
  runInstances : RunInstancesReq → Except String (List AwsRawInstance)

/-- getLatestAmi for the ubuntu24 image: the SSM parameter value (empty when
the response carries none), or the ubuntu24 fallback AMI on error. -/
def awsGetLatestAmi (env : AwsDeployEnv) : String :=
  match env.amiOutcome with
  | .ok v => v.getD ""
  | .error _ => "ami-04b70fa74e45c3917"

/-- createSecurityGroup: the created group id, or undefined when creation or
ingress authorization failed (the catch returns undefined). -/
def awsCreateSecurityGroup (env : AwsDeployEnv) : Option String :=
  match env.sgOutcome with
  | .ok g => g
  | .error _ => none

/-- The K3s installation startup script passed as user data. -/
def awsUserDataScript : String :=
  "#!/bin/bash\n# Install K3s (Lightweight Kubernetes)\ncurl -sfL https://get.k3s.io | sh -s - --tls-san $(curl http://169.254.169.254/latest/meta-data/public-ipv4) --write-kubeconfig-mode 644\n"

/-- The tag list of the instance TagSpecifications of one AWS deploy. -/
def awsInstanceTags (name deploymentId : String) (customTags : List TagKV) :
    List TagKV :=
  [⟨"Name", name ++ "-node"⟩, ⟨"DeploymentId", deploymentId⟩,
   ⟨"Cluster", name⟩, ⟨"ManagedBy", "clusters-control-plane"⟩] ++ customTags

/-- The RunInstances request of one AWS deploy call. -/
def awsRunReq (env : AwsDeployEnv) (cfg : ConfigBlob) : RunInstancesReq :=
  let name := jsInterp cfg.name
  let nodeCount := cfg.nodeCount.getD 3
  let instanceType := cfg.instanceType.getD "t2.micro"
  let customTags := cfg.tags.getD []
  let deploymentId := env.uuid
  { imageId := awsGetLatestAmi env
    instanceType := instanceType
    minCount := nodeCount
    maxCount := nodeCount
    keyName := "key-" ++ jsSlice deploymentId 8
    securityGroupIds := (awsCreateSecurityGroup env).map (fun g => [g])
    userDataScript := awsUserDataScript
    tags := awsInstanceTags name deploymentId customTags }

/-- AWSProvider.deploy: allocate a fresh deployment id, create key pair and
security group (failures caught), issue one RunInstances call for all N
nodes, and map the returned instances (dropping any without an id) into the
ProvisioningResult. -/
def awsDeploy (env : AwsDeployEnv) (cfg : ConfigBlob) :
    Except String ProvisioningResult :=
  let deploymentId := env.uuid
  let keyName := "key-" ++ jsSlice deploymentId 8
  let keyMaterial : Option String :=
    match env.keyPairOutcome with
    | .ok km => km
    | .error _ => none
  match env.runInstances (awsRunReq env cfg) with
  | .ok raws =>
    .ok { success := true
          deploymentId := some deploymentId
          resourceType := some "ec2-cluster"
          instances := some ((raws.filter (fun i => strTruthy i.instanceId)).map
            (fun i => { instanceId := i.instanceId.getD ""
                        privateIp := i.privateIpAddress
                        state := i.stateName }))
          details := some { keyName := some keyName
                            keyMaterial := keyMaterial
                            sshUser := some "ubuntu" } }
  | .error e => .error ("AWS Launch Failed: " ++ e)

/-- One GCE instance insert request. -/
structure GcpInsertReq where
  project : String
  zone : String
  name : String
  machineType : String
  sourceImage : String
  labels : List TagKV
deriving DecidableEq, Repr

/-- Network outcomes of one GCP deploy call: the fresh uuid and the insert
call as a function of the issued request, returning the operation name. -/
structure GcpDeployEnv where
  uuid : String
  projectId : String
  zone : String
  insert : GcpInsertReq → Except String (Option String)

/-- The labels object attached to every GCE instance of one deploy. -/
def gcpLabels (deploymentId : String) (customTags : List TagKV) : List TagKV :=
  [⟨"deployment_id", deploymentId⟩,
   ⟨"managed_by", "clusters-control-plane"⟩] ++ customTags

/-- The per-node insert requests of one GCP deploy call. -/
def gcpInsertReqs (env : GcpDeployEnv) (cfg : ConfigBlob) : List GcpInsertReq :=
  let name := jsInterp cfg.name
  let nodeCount := cfg.nodeCount.getD 2
  let instanceType := cfg.instanceType.getD "e2-micro"
  (List.range nodeCount).map (fun i =>
    { project := env.projectId
      zone := env.zone
      name := name ++ "-node-" ++ toString (i + 1)
      machineType := "zones/" ++ env.zone ++ "/machineTypes/" ++ instanceType
      sourceImage := "projects/debian-cloud/global/images/family/debian-11"
      labels := gcpLabels env.uuid (cfg.tags.getD []) })

/-- GCPProvider.deploy: issue the N labelled insert requests concurrently
and await them together; any rejection fails the whole call wrapped in the
provider error; on success each node descriptor is built from the request
name and the returned operation. -/
def gcpDeploy (env : GcpDeployEnv) (cfg : ConfigBlob) :
    Except String ProvisioningResult :=
  match exceptMapM (fun req => (env.insert req).map
      (fun op => ({ name := some req.name
                    status := some "PROVISIONING"
                    operation := op } : GenericNode)))
      (gcpInsertReqs env cfg) with
  | .ok nodes =>
    .ok { success := true
          deploymentId := some env.uuid
          resourceType := some "gce-cluster"
          nodes := some nodes
          details := some { zone := some env.zone
                            machineType := some (cfg.instanceType.getD "e2-micro") } }
  | .error e => .error ("GCP Provisioning Failed: " ++ e)

/-- A created Azure public IP address resource. -/
structure AzPip where
  id : Option String := none
  ipAddress : Option String := none
deriving DecidableEq, Repr

/-- A created Azure virtual machine. -/
structure AzVm where
  name : Option String := none
  id : Option String := none
deriving DecidableEq, Repr

/-- The VM creation request one Azure deploy issues per node. -/
structure AzVmReq where
  name : String
  vmSize : String
  adminUsername : String
  adminPassword : String
  nicId : Option String
  tags : List TagKV
deriving DecidableEq, Repr

/-- Network outcomes of one Azure deploy call. -/
structure AzDeployEnv where
  uuid : String
  ensureRG : Except String Unit
  createVnet : Except String Unit
  createPip : String → Except String AzPip
  createNic : String → Option String → Except String (Option String)
  createVm : AzVmReq → Except String AzVm

/-- The tags object attached to every Azure VM of one deploy. -/
def azVmTags (deploymentId : String) (customTags : List TagKV) : List TagKV :=
  [⟨"DeploymentId", deploymentId⟩,
   ⟨"ManagedBy", "clusters-control-plane"⟩] ++ customTags

/-- The creation of one Azure node: public IP, then NIC, then the tagged
VM; the node object is built from the VM and public IP responses. -/
def azCreateNode (env : AzDeployEnv) (cfg : ConfigBlob) (i : Nat) :
    Except String GenericNode :=
  let name := jsInterp cfg.name
  let vmSize := cfg.instanceType.getD "Standard_B1s"
  let nodeName := name ++ "-node-" ++ toString (i + 1)
  match env.createPip (nodeName ++ "-pip") with
  | .error e => .error e
  | .ok pip =>
    match env.createNic (nodeName ++ "-nic") pip.id with
    | .error e => .error e
    | .ok nicId =>
      match env.createVm { name := nodeName
                           vmSize := vmSize
                           adminUsername := "azureuser"
                           adminPassword := "Cluster" ++ jsSlice env.uuid 8 ++ "!"
                           nicId := nicId
                           tags := azVmTags env.uuid (cfg.tags.getD []) } with
      | .error e => .error e
      | .ok vm => .ok { name := vm.name, id := vm.id, publicIP := pip.ipAddress }

/-- AzureProvider.deploy: ensure the resource group and the vnet, then
create the N nodes concurrently and await them together; any failure fails
the whole call wrapped in the provider error. -/
def azureDeploy (env : AzDeployEnv) (cfg : ConfigBlob) :
    Except String ProvisioningResult :=
  match env.ensureRG with
  | .error e => .error ("Azure Provisioning Failed: " ++ e)
  | .ok _ =>
    match env.createVnet with
    | .error e => .error ("Azure Provisioning Failed: " ++ e)
    | .ok _ =>
      match exceptMapM (azCreateNode env cfg) (List.range (cfg.nodeCount.getD 2)) with
      | .ok nodes =>
        .ok { success := true
              deploymentId := some env.uuid
              resourceType := some "azure-vm-cluster"
              nodes := some nodes
              details := some { resourceGroup := some "clusters-auto-deploy-rg"
                                adminUsername := some "azureuser" } }
      | .error e => .error ("Azure Provisioning Failed: " ++ e)

theorem tagLookup_append_of_not_mem (base custom : List TagKV) (k : String)
    (h : ∀ t ∈ custom, t.key ≠ k) :
    tagLookup (base ++ custom) k = tagLookup base k := by
  unfold tagLookup
  rw [List.reverse_append]
  have hnone : custom.reverse.find? (fun t => t.key == k) = none := by
    rw [List.find?_eq_none]
    intro t ht
    have := h t (List.mem_reverse.mp ht)
    simp [this]
  rw [List.find?_append, hnone]
  simp

theorem tagLookup_pair_append_fst (k1 v1 k2 v2 : String) (custom : List TagKV)
    (hne : k2 ≠ k1) (h : ∀ t ∈ custom, t.key ≠ k1) :
    tagLookup (([⟨k1, v1⟩, ⟨k2, v2⟩] : List TagKV) ++ custom) k1 = some v1 := by
  rw [tagLookup_append_of_not_mem _ _ _ h]
  have hb : (k2 == k1) = false := beq_eq_false_iff_ne.mpr hne
  simp [tagLookup, List.find?, hb]

theorem tagLookup_pair_append_snd (k1 v1 k2 v2 : String) (custom : List TagKV)
    (h : ∀ t ∈ custom, t.key ≠ k2) :
    tagLookup (([⟨k1, v1⟩, ⟨k2, v2⟩] : List TagKV) ++ custom) k2 = some v2 := by
  rw [tagLookup_append_of_not_mem _ _ _ h]
  simp [tagLookup, List.find?]

/-- The instance descriptor count of a deploy outcome. -/
def okInstanceCount : Except String ProvisioningResult → Option Nat
  | .ok r => r.instances.map List.length
  | .error _ => none

/-- The node descriptor count of a deploy outcome. -/
def okNodeCount : Except String ProvisioningResult → Option Nat
  | .ok r => r.nodes.map List.length
  | .error _ => none

/-- The deployment identifier of a deploy outcome. -/
def okDeploymentId : Except String ProvisioningResult → Option String
  | .ok r => r.deploymentId
  | .error _ => none

/-- C5: every successful deploy requesting N nodes returns exactly N node
descriptors, and every node-create request of the call carries the fresh
deployment identifier tag (DeploymentId for aws and azure, the
deployment_id label for gcp) plus the fixed managed-by marker.  The aws
hypotheses state the EC2 contract that a successful RunInstances with
MinCount = MaxCount = N returns N instances each carrying an id; the gcp
and azure custom-tag hypotheses say the caller does not shadow the reserved
keys (the repository's own callers never set custom tags). -/
theorem c5_deploy_returns_n_tagged_nodes
    (envA : AwsDeployEnv) (cfgA : ConfigBlob) (raws : List AwsRawInstance)
    (envG : GcpDeployEnv) (cfgG : ConfigBlob)
    (envZ : AzDeployEnv) (cfgZ : ConfigBlob)
    (hrunA : envA.runInstances (awsRunReq envA cfgA) = .ok raws)
    (hlenA : raws.length = cfgA.nodeCount.getD 3)
    (hidsA : ∀ i ∈ raws, strTruthy i.instanceId = true)
    (hGok : exceptIsOk (gcpDeploy envG cfgG) = true)
    (hcustG : ∀ t ∈ cfgG.tags.getD [],
      t.key ≠ "deployment_id" ∧ t.key ≠ "managed_by")
    (hZok : exceptIsOk (azureDeploy envZ cfgZ) = true)
    (hcustZ : ∀ t ∈ cfgZ.tags.getD [],
      t.key ≠ "DeploymentId" ∧ t.key ≠ "ManagedBy") :
    (okInstanceCount (awsDeploy envA cfgA) = some (cfgA.nodeCount.getD 3) ∧
     okDeploymentId (awsDeploy envA cfgA) = some envA.uuid ∧
     (awsRunReq envA cfgA).minCount = cfgA.nodeCount.getD 3 ∧
     (awsRunReq envA cfgA).maxCount = cfgA.nodeCount.getD 3 ∧
     (⟨"DeploymentId", envA.uuid⟩ : TagKV) ∈ (awsRunReq envA cfgA).tags ∧
     (⟨"ManagedBy", "clusters-control-plane"⟩ : TagKV) ∈ (awsRunReq envA cfgA).tags) ∧
    (okNodeCount (gcpDeploy envG cfgG) = some (cfgG.nodeCount.getD 2) ∧
     okDeploymentId (gcpDeploy envG cfgG) = some envG.uuid ∧
     ((gcpInsertReqs envG cfgG).all
       (fun req => req.labels == gcpLabels envG.uuid (cfgG.tags.getD []))) = true ∧
     tagLookup (gcpLabels envG.uuid (cfgG.tags.getD [])) "deployment_id" =
       some envG.uuid ∧
     tagLookup (gcpLabels envG.uuid (cfgG.tags.getD [])) "managed_by" =
       some "clusters-control-plane") ∧
    (okNodeCount (azureDeploy envZ cfgZ) = some (cfgZ.nodeCount.getD 2) ∧
     okDeploymentId (azureDeploy envZ cfgZ) = some envZ.uuid ∧
     tagLookup (azVmTags envZ.uuid (cfgZ.tags.getD [])) "DeploymentId" =
       some envZ.uuid ∧
     tagLookup (azVmTags envZ.uuid (cfgZ.tags.getD [])) "ManagedBy" =
       some "clusters-control-plane") := by
  have hfilter : raws.filter (fun i => strTruthy i.instanceId) = raws :=
    List.filter_eq_self.mpr hidsA
  refine ⟨⟨?_, ?_, rfl, rfl, ?_, ?_⟩, ?_, ?_⟩
  · simp [awsDeploy, hrunA, okInstanceCount, hfilter, hlenA]
  · simp [awsDeploy, hrunA, okDeploymentId]
  · simp [awsRunReq, awsInstanceTags]
  · simp [awsRunReq, awsInstanceTags]
  · -- gcp
    cases hm : exceptMapM (fun req => (envG.insert req).map
        (fun op => ({ name := some req.name
                      status := some "PROVISIONING"
                      operation := op } : GenericNode)))
        (gcpInsertReqs envG cfgG) with
    | error e =>
      exfalso
      unfold gcpDeploy at hGok
      rw [hm] at hGok
      simp [exceptIsOk] at hGok
    | ok nodes =>
      have hlen : nodes.length = cfgG.nodeCount.getD 2 := by
        have h1 := exceptMapM_ok_length _ _ nodes hm
        simpa [gcpInsertReqs] using h1
      refine ⟨?_, ?_, ?_, ?_, ?_⟩
      · unfold gcpDeploy
        rw [hm]
        simp [okNodeCount, hlen]
      · unfold gcpDeploy
        rw [hm]
        simp [okDeploymentId]
      · simp only [List.all_eq_true, gcpInsertReqs, List.mem_map]
        rintro req ⟨i, _, rfl⟩
        simp
      · unfold gcpLabels
        exact tagLookup_pair_append_fst _ _ _ _ _ (by decide)
          (fun t ht => (hcustG t ht).1)
      · unfold gcpLabels
        exact tagLookup_pair_append_snd _ _ _ _ _
          (fun t ht => (hcustG t ht).2)
  · -- azure
    cases h1 : envZ.ensureRG with
    | error e =>
      exfalso
      unfold azureDeploy at hZok
      rw [h1] at hZok
      simp [exceptIsOk] at hZok
    | ok u1 =>
      cases h2 : envZ.createVnet with
      | error e =>
        exfalso
        unfold azureDeploy at hZok
        rw [h1, h2] at hZok
        simp [exceptIsOk] at hZok
      | ok u2 =>
        cases hm : exceptMapM (azCreateNode envZ cfgZ)
            (List.range (cfgZ.nodeCount.getD 2)) with
        | error e =>
          exfalso
          unfold azureDeploy at hZok
          rw [h1] at hZok
          dsimp only at hZok
          rw [h2] at hZok
          dsimp only at hZok
          rw [hm] at hZok
          simp [exceptIsOk] at hZok
        | ok nodes =>
          have hlen : nodes.length = cfgZ.nodeCount.getD 2 := by
            have hx := exceptMapM_ok_length _ _ nodes hm
            simpa using hx
          refine ⟨?_, ?_, ?_, ?_⟩
          · unfold azureDeploy
            rw [h1]
            dsimp only
            rw [h2]
            dsimp only
            rw [hm]
            simp [okNodeCount, hlen]
          · unfold azureDeploy
            rw [h1]
            dsimp only
            rw [h2]
            dsimp only
            rw [hm]
            simp [okDeploymentId]
          · unfold azVmTags
            exact tagLookup_pair_append_fst _ _ _ _ _ (by decide)
              (fun t ht => (hcustZ t ht).1)
          · unfold azVmTags
            exact tagLookup_pair_append_snd _ _ _ _ _
              (fun t ht => (hcustZ t ht).2)

/-- The RunInstances response of the C5 witness: two instances with ids. -/
def c5Raws : List AwsRawInstance :=
  [{ instanceId := some "i-0" }, { instanceId := some "i-1" }]

/-- Concrete AWS deploy environment for the C5 witness. -/
def c5AwsEnv : AwsDeployEnv :=
  { uuid := "u-12345678"
    amiOutcome := .ok (some "ami-1")
    keyPairOutcome := .ok (some "PEM")
    sgOutcome := .ok (some "sg-1")
    runInstances := fun _ => .ok c5Raws }

/-- Concrete AWS deploy config for the C5 witness. -/
def c5CfgA : ConfigBlob := { name := some "a", nodeCount := some 2 }

/-- Concrete GCP deploy environment for the C5 witness. -/
def c5GcpEnv : GcpDeployEnv :=
  { uuid := "u-2", projectId := "p", zone := "z", insert := fun _ => .ok (some "op-1") }

/-- Concrete GCP deploy config for the C5 witness. -/
def c5CfgG : ConfigBlob := { name := some "g", nodeCount := some 2 }

/-- Concrete Azure deploy environment for the C5 witness. -/
def c5AzEnv : AzDeployEnv :=
  { uuid := "u-3"
    ensureRG := .ok ()
    createVnet := .ok ()
    createPip := fun _ => .ok { id := some "pid", ipAddress := some "9.9.9.9" }
    createNic := fun _ _ => .ok (some "nic-1")
    createVm := fun req => .ok { name := some req.name, id := some "vm-id" } }

/-- Concrete Azure deploy config for the C5 witness. -/
def c5CfgZ : ConfigBlob := { name := some "z", nodeCount := some 2 }

/-- Witness for C5 at concrete two-node deploys on all three cloud
adapters. -/
theorem c5_witness :
    (okInstanceCount (awsDeploy c5AwsEnv c5CfgA) = some (c5CfgA.nodeCount.getD 3) ∧
     okDeploymentId (awsDeploy c5AwsEnv c5CfgA) = some c5AwsEnv.uuid ∧
     (awsRunReq c5AwsEnv c5CfgA).minCount = c5CfgA.nodeCount.getD 3 ∧
     (awsRunReq c5AwsEnv c5CfgA).maxCount = c5CfgA.nodeCount.getD 3 ∧
     (⟨"DeploymentId", c5AwsEnv.uuid⟩ : TagKV) ∈ (awsRunReq c5AwsEnv c5CfgA).tags ∧
     (⟨"ManagedBy", "clusters-control-plane"⟩ : TagKV) ∈ (awsRunReq c5AwsEnv c5CfgA).tags) ∧
    (okNodeCount (gcpDeploy c5GcpEnv c5CfgG) = some (c5CfgG.nodeCount.getD 2) ∧
     okDeploymentId (gcpDeploy c5GcpEnv c5CfgG) = some c5GcpEnv.uuid ∧
     ((gcpInsertReqs c5GcpEnv c5CfgG).all
       (fun req => req.labels == gcpLabels c5GcpEnv.uuid (c5CfgG.tags.getD []))) = true ∧
     tagLookup (gcpLabels c5GcpEnv.uuid (c5CfgG.tags.getD [])) "deployment_id" =
       some c5GcpEnv.uuid ∧
     tagLookup (gcpLabels c5GcpEnv.uuid (c5CfgG.tags.getD [])) "managed_by" =
       some "clusters-control-plane") ∧
    (okNodeCount (azureDeploy c5AzEnv c5CfgZ) = some (c5CfgZ.nodeCount.getD 2) ∧
     okDeploymentId (azureDeploy c5AzEnv c5CfgZ) = some c5AzEnv.uuid ∧
     tagLookup (azVmTags c5AzEnv.uuid (c5CfgZ.tags.getD [])) "DeploymentId" =
       some c5AzEnv.uuid ∧
     tagLookup (azVmTags c5AzEnv.uuid (c5CfgZ.tags.getD [])) "ManagedBy" =
       some "clusters-control-plane") :=
  c5_deploy_returns_n_tagged_nodes c5AwsEnv c5CfgA c5Raws c5GcpEnv c5CfgG
    c5AzEnv c5CfgZ (by decide) (by decide) (by decide) (by decide) (by decide)
    (by decide) (by decide)

end MulticloudK8s
